import Mathlib

/-!
Shallow embedding of the authentication and role-authorization subsystem of
the vibanda-village-admin-backend repository.

The document store is modelled as a `List User`; timestamps are `Nat`;
the password hasher and token issuer of `pkg/utils` (not part of the
sources) are passed in as opaque function parameters.  Each HTTP handler
becomes a state-passing function `db → (db, Except err response)`:
an early `return` with an error JSON is an `Except.error` paired with the
unchanged store, and a persistence write produces the new store.
-/

/-- `UserRole` from internal/models/user.go: admin, manager, staff. -/
inductive UserRole
  | admin
  | manager
  | staff
deriving DecidableEq, Repr, Fintype

/-- `UserStatus` from internal/models/user.go: active, inactive. -/
inductive UserStatus
  | active
  | inactive
deriving DecidableEq, Repr

/-- `User` from internal/models/user.go (the variant with Department, Bio,
ProfileImage and SocialLinks, which is the one the handlers reference).
ObjectIDs are modelled as `Nat`, `time.Time` as `Nat`,
`map[string]string` as an association list, the nullable `LastLogin`
pointer as an `Option`. -/
structure User where
  id : Nat
  name : String
  email : String
  username : String
  password : String
  role : UserRole
  status : UserStatus
  phone : String
  department : String
  bio : String
  profileImage : String
  socialLinks : Option (List (String × String))
  lastLogin : Option Nat
  createdAt : Nat
  updatedAt : Nat
deriving DecidableEq, Repr

/-- `RegisterRequest` from internal/models/user.go. -/
structure RegisterRequest where
  name : String
  email : String
  username : String
  password : String
  phone : String
  department : String
  bio : String
  role : UserRole
deriving DecidableEq, Repr

/-- `LoginRequest` from internal/models/user.go. -/
structure LoginRequest where
  email : String
  password : String
deriving DecidableEq, Repr

/-- `UpdateUserRequest` from internal/models/user.go.  The Go struct uses
zero values as absence sentinels: an empty string means the field is not in
the patch; for `Role` and `Status` the empty string is not one of the three
respectively two enumerated constants, so absence is an `Option`; the
`SocialLinks` map is absent when `nil`. -/
structure UpdateUserRequest where
  name : String
  email : String
  username : String
  phone : String
  department : String
  bio : String
  profileImage : String
  socialLinks : Option (List (String × String))
  role : Option UserRole
  status : Option UserStatus
deriving DecidableEq, Repr

/-- Decidable equality of handler results, so that concrete runs can be
checked by evaluation. -/
instance {ε α : Type} [DecidableEq ε] [DecidableEq α] :
    DecidableEq (Except ε α) := fun a b =>
  match a, b with
  | .error e1, .error e2 =>
    if h : e1 = e2 then .isTrue (h ▸ rfl)
    else .isFalse fun hc => h (Except.error.inj hc)
  | .ok a1, .ok a2 =>
    if h : a1 = a2 then .isTrue (h ▸ rfl)
    else .isFalse fun hc => h (Except.ok.inj hc)
  | .error _, .ok _ => .isFalse fun hc => Except.noConfusion hc
  | .ok _, .error _ => .isFalse fun hc => Except.noConfusion hc

/-- `FindOne` on the users collection with an `_id` equality filter. -/
def findById (db : List User) (i : Nat) : Option User :=
  db.find? (fun u => u.id == i)

/-- `FindOne` on the users collection with an `email` equality filter
(Login, line 119 of the auth handler file). -/
def findByEmail (db : List User) (e : String) : Option User :=
  db.find? (fun u => u.email == e)

/-- The `$or` duplicate lookup of Register (auth handlers, lines 50-55) and
CreateUser (users.go, lines 201-206): some stored account already holds the
requested email or username. -/
def emailOrUsernameTaken (db : List User) (e uname : String) : Bool :=
  (db.find? (fun u => u.email == e || u.username == uname)).isSome

/-- The email conflict lookup of UpdateUser (users.go, line 332): another
account (different `_id`) already holds the email. -/
def emailTakenByOther (db : List User) (e : String) (tid : Nat) : Bool :=
  (db.find? (fun u => u.email == e && !(u.id == tid))).isSome

/-- The username conflict lookup of UpdateUser (users.go, line 342). -/
def usernameTakenByOther (db : List User) (uname : String) (tid : Nat) : Bool :=
  (db.find? (fun u => u.username == uname && !(u.id == tid))).isSome

/-- Mongo `UpdateOne` with an `_id` filter: rewrite the first record with
the given id, leave everything else in place. -/
def updateFirst (db : List User) (targetId : Nat) (f : User → User) : List User :=
  match db with
  | [] => []
  | u :: rest =>
    if u.id == targetId then f u :: rest
    else u :: updateFirst rest targetId f

/-- Mongo `DeleteOne` with an `_id` filter: drop the first record with the
given id. -/
def deleteFirst (db : List User) (targetId : Nat) : List User :=
  match db with
  | [] => []
  | u :: rest =>
    if u.id == targetId then rest
    else u :: deleteFirst rest targetId

/-- The 401 message shared by the two credential failures of Login
(auth handlers, lines 121 and 127). -/
def invalidCredentialsMsg : String :=
  "The email or password you entered is incorrect. Please check your credentials and try again."

/-- The 401 message of the inactive-account failure of Login
(auth handlers, line 133). -/
def inactiveAccountMsg : String :=
  "Your account is currently inactive. Please contact support for assistance."

/-- `RegisterError`: the one data-dependent error of Register, the 409
duplicate conflict.  (400 malformed input and 500 infrastructure failures
are outside the embedding.) -/
inductive RegisterError
  | conflict
deriving DecidableEq, Repr

/-- The record built by Register (auth handler file, lines 70-82): role
taken verbatim from the request, status `StatusActive`, both timestamps
`now`.  Register copies Name, Email, Username, Phone and Role from the
request; it does not copy Department or Bio, and sets no ProfileImage,
SocialLinks or LastLogin. -/
def registeredUser (hash : String → String) (now newId : Nat)
    (req : RegisterRequest) : User :=
  { id := newId
    name := req.name
    email := req.email
    username := req.username
    password := hash req.password
    role := req.role
    status := .active
    phone := req.phone
    department := ""
    bio := ""
    profileImage := ""
    socialLinks := none
    lastLogin := none
    createdAt := now
    updatedAt := now }

/-- `Register` (auth handler file, lines 36-91), the public unauthenticated
registration handler: reject a duplicate email or username with 409,
otherwise insert the record built above.  No authentication and no role
restriction appears on this path (routes.go registers it in the public
group). -/
def Register (hash : String → String) (now newId : Nat)
    (db : List User) (req : RegisterRequest) :
    List User × Except RegisterError User :=
  if emailOrUsernameTaken db req.email req.username then
    (db, .error .conflict)
  else
    (db ++ [registeredUser hash now newId req], .ok (registeredUser hash now newId req))

/-- `Login` (auth handler file, lines 105-162).  Order of checks as in the
source: find by email (miss → 401 invalid credentials), verify password
(mismatch → the same 401 message), check active status (→ a different 401
message), then `$set` last_login and updated_at on the stored record and
issue a token.  Errors carry the HTTP status and the message string. -/
def Login (check : String → String → Bool) (genToken : User → String)
    (now : Nat) (db : List User) (req : LoginRequest) :
    List User × Except (Nat × String) (String × User) :=
  match findByEmail db req.email with
  | none => (db, .error (401, invalidCredentialsMsg))
  | some user =>
    if !(check req.password user.password) then
      (db, .error (401, invalidCredentialsMsg))
    else if user.status != UserStatus.active then
      (db, .error (401, inactiveAccountMsg))
    else
      let updated := { user with lastLogin := some now, updatedAt := now }
      (updateFirst db user.id (fun st => { st with lastLogin := some now, updatedAt := now }),
       .ok (genToken updated, updated))

/-- C7: Login returns the identical error — same 401 status and same
message — when no account matches the email and when the password does not
verify, and a distinct inactive-account error (still 401) when the matched
account is not active. -/
theorem login_error_cases_distinguish_only_inactivity
    (check : String → String → Bool) (genToken : User → String)
    (now : Nat) (db : List User) (req : LoginRequest) :
    (findByEmail db req.email = none →
      Login check genToken now db req = (db, .error (401, invalidCredentialsMsg))) ∧
    (∀ user, findByEmail db req.email = some user →
      check req.password user.password = false →
      Login check genToken now db req = (db, .error (401, invalidCredentialsMsg))) ∧
    (∀ user, findByEmail db req.email = some user →
      check req.password user.password = true →
      user.status ≠ UserStatus.active →
      Login check genToken now db req = (db, .error (401, inactiveAccountMsg))) ∧
    invalidCredentialsMsg ≠ inactiveAccountMsg := by
  refine ⟨?_, ?_, ?_, ?_⟩
  · intro h
    simp [Login, h]
  · intro user h hpw
    simp [Login, h, hpw]
  · intro user h hpw hst
    simp [Login, h, hpw, hst]
  · decide

/-- A concrete active staff account used in witnesses. -/
def alice : User :=
  { id := 1
    name := "Alice"
    email := "a@x.com"
    username := "alice"
    password := "h"
    role := .staff
    status := .active
    phone := ""
    department := ""
    bio := ""
    profileImage := ""
    socialLinks := none
    lastLogin := none
    createdAt := 0
    updatedAt := 0 }

/-- The same account, inactive. -/
def aliceInactive : User := { alice with status := .inactive }

/-- A concrete login request for the account above. -/
def aliceLoginReq : LoginRequest := { email := "a@x.com", password := "pw" }

/-- Witness for C7: the three error cases at concrete stores and a
concrete request, each obtained from the theorem with its hypotheses
discharged. -/
theorem login_error_cases_witness :
    Login (fun _ _ => true) (fun _ => "t") 0 [] aliceLoginReq =
      ([], .error (401, invalidCredentialsMsg)) ∧
    Login (fun _ _ => false) (fun _ => "t") 0 [alice] aliceLoginReq =
      ([alice], .error (401, invalidCredentialsMsg)) ∧
    Login (fun _ _ => true) (fun _ => "t") 0 [aliceInactive] aliceLoginReq =
      ([aliceInactive], .error (401, inactiveAccountMsg)) ∧
    invalidCredentialsMsg ≠ inactiveAccountMsg :=
  ⟨(login_error_cases_distinguish_only_inactivity _ _ 0 [] aliceLoginReq).1 (by decide),
   (login_error_cases_distinguish_only_inactivity _ _ 0 [alice] aliceLoginReq).2.1
     alice (by decide) rfl,
   (login_error_cases_distinguish_only_inactivity _ _ 0 [aliceInactive] aliceLoginReq).2.2.1
     aliceInactive (by decide) rfl (by decide),
   (login_error_cases_distinguish_only_inactivity (fun _ _ => true) (fun _ => "t")
     0 [] aliceLoginReq).2.2.2⟩

/-- The create-permission decision of CreateUser (users.go, lines 181-197):
admin may create anything but admin; manager may create only staff; staff
may create nobody. -/
def can_create (actorRole targetRole : UserRole) : Bool :=
  match actorRole with
  | .admin => !(targetRole == .admin)
  | .manager => targetRole == .staff
  | .staff => false

/-- The update-permission decision of UpdateUser (users.go, lines 306-327),
over the actor role, the target record current role, and the patch role
field (`none` when the patch omits it): admin is denied exactly when the
patch carries a role, the target is an admin, and the patched role is not
admin; manager is allowed exactly on a staff target with no role in the
patch; staff is always denied. -/
def can_update (actorRole targetRole : UserRole) (patchRole : Option UserRole) : Bool :=
  match actorRole with
  | .admin =>
    match patchRole with
    | some r => !(targetRole == .admin && !(r == .admin))
    | none => true
  | .manager => targetRole == .staff && patchRole == none
  | .staff => false

/-- The delete-permission decision of DeleteUser (users.go, lines 453-463):
the only denials are admin acting on admin or manager, and manager acting
on admin.  The handler has no check for a staff actor. -/
def can_delete (actorRole targetRole : UserRole) : Bool :=
  !(actorRole == .admin && (targetRole == .admin || targetRole == .manager)) &&
  !(actorRole == .manager && targetRole == .admin)

/-- Errors of CreateUser (users.go): 500 when the actor record cannot be
loaded, 403 on a policy denial, 409 on a duplicate email or username. -/
inductive CreateError
  | internalErr
  | forbidden
  | conflict
deriving DecidableEq, Repr

/-- The record built by CreateUser (users.go, lines 221-235): like the one
Register builds, except that Department and Bio are copied from the
request. -/
def createdUser (hash : String → String) (now newId : Nat)
    (req : RegisterRequest) : User :=
  { id := newId
    name := req.name
    email := req.email
    username := req.username
    password := hash req.password
    role := req.role
    status := .active
    phone := req.phone
    department := req.department
    bio := req.bio
    profileImage := ""
    socialLinks := none
    lastLogin := none
    createdAt := now
    updatedAt := now }

/-- `CreateUser` (users.go, lines 150-244), the authenticated account
creation handler: load the actor record, run the permission checks, reject
duplicates, then insert the new record with the requested role and status
`StatusActive`. -/
def CreateUser (hash : String → String) (now newId : Nat)
    (db : List User) (actorId : Nat) (req : RegisterRequest) :
    List User × Except CreateError User :=
  match findById db actorId with
  | none => (db, .error .internalErr)
  | some actor =>
    if !(can_create actor.role req.role) then
      (db, .error .forbidden)
    else if emailOrUsernameTaken db req.email req.username then
      (db, .error .conflict)
    else
      (db ++ [createdUser hash now newId req], .ok (createdUser hash now newId req))

/-- Errors of UpdateUser (users.go): 500 when the actor record cannot be
loaded, 404 when the target is absent, 403 on a policy denial, 409 on an
email or username held by a different account. -/
inductive UpdateError
  | internalErr
  | notFound
  | forbidden
  | conflictEmail
  | conflictUsername
deriving DecidableEq, Repr

/-- The field application block of UpdateUser (users.go, lines 330-376).
The Go code applies the guards sequentially to the loaded record, but each
guard writes one field and reads only that same field of the record, so the
sequential form equals this simultaneous one.  A string field is applied
when non-empty; email and username additionally only when different from
the current value (when equal the write is skipped but the value is
unchanged); SocialLinks when non-nil; Role and Status when non-empty.
Finally `updated_at` is stamped with the current time. -/
def applyFields (now : Nat) (req : UpdateUserRequest) (u : User) : User :=
  { u with
    email := if req.email != "" && !(req.email == u.email) then req.email else u.email
    username :=
      if req.username != "" && !(req.username == u.username) then req.username else u.username
    name := if req.name != "" then req.name else u.name
    phone := if req.phone != "" then req.phone else u.phone
    department := if req.department != "" then req.department else u.department
    bio := if req.bio != "" then req.bio else u.bio
    profileImage := if req.profileImage != "" then req.profileImage else u.profileImage
    socialLinks :=
      match req.socialLinks with
      | some links => some links
      | none => u.socialLinks
    role :=
      match req.role with
      | some r => r
      | none => u.role
    status :=
      match req.status with
      | some s => s
      | none => u.status
    updatedAt := now }

/-- The `$set` document of UpdateUser (users.go, lines 378-390): exactly
name, email, username, phone, department, bio, profile_image, social_links,
role, status and updated_at are written onto the stored record; password,
created_at and last_login are not in the set list. -/
def applySet (stored u : User) : User :=
  { stored with
    name := u.name
    email := u.email
    username := u.username
    phone := u.phone
    department := u.department
    bio := u.bio
    profileImage := u.profileImage
    socialLinks := u.socialLinks
    role := u.role
    status := u.status
    updatedAt := u.updatedAt }

/-- `UpdateUser` (users.go, lines 261-399): load the actor, load the
target (404 when absent), run the permission checks, check email and
username conflicts against other accounts, apply the patch fields, stamp
`updated_at`, `$set` the listed fields on the stored record, and respond
with the updated record. -/
def UpdateUser (now : Nat) (db : List User) (actorId targetId : Nat)
    (req : UpdateUserRequest) : List User × Except UpdateError User :=
  match findById db actorId with
  | none => (db, .error .internalErr)
  | some actor =>
  match findById db targetId with
  | none => (db, .error .notFound)
  | some user0 =>
    if !(can_update actor.role user0.role req.role) then
      (db, .error .forbidden)
    else if req.email != "" && !(req.email == user0.email) &&
        emailTakenByOther db req.email targetId then
      (db, .error .conflictEmail)
    else if req.username != "" && !(req.username == user0.username) &&
        usernameTakenByOther db req.username targetId then
      (db, .error .conflictUsername)
    else
      let u := applyFields now req user0
      (updateFirst db targetId (fun st => applySet st u), .ok u)

/-- Errors of DeleteUser (users.go): 404 when the target is absent, 500
when the actor record cannot be loaded, 403 on a policy denial. -/
inductive DeleteError
  | notFound
  | internalErr
  | forbidden
deriving DecidableEq, Repr

/-- `DeleteUser` (users.go, lines 415-472): load the target (404 when
absent), load the actor, forbid admin acting on admin or manager and
manager acting on admin, otherwise delete the record.  There is no branch
for a staff actor: a staff actor reaching this handler passes the checks. -/
def DeleteUser (db : List User) (actorId targetId : Nat) :
    List User × Except DeleteError Unit :=
  match findById db targetId with
  | none => (db, .error .notFound)
  | some target =>
  match findById db actorId with
  | none => (db, .error .internalErr)
  | some actor =>
    if actor.role == .admin && (target.role == .admin || target.role == .manager) then
      (db, .error .forbidden)
    else if actor.role == .manager && target.role == .admin then
      (db, .error .forbidden)
    else
      (deleteFirst db targetId, .ok ())

/-- Position of a role in the hierarchy admin > manager > staff. -/
def roleRank : UserRole → Nat
  | .staff => 0
  | .manager => 1
  | .admin => 2

/-- A concrete manager account used in witnesses. -/
def mia : User :=
  { alice with
    id := 2
    name := "Mia"
    email := "m@x.com"
    username := "mia"
    role := .manager }

/-- A concrete staff account used in witnesses. -/
def stan : User :=
  { alice with
    id := 3
    name := "Stan"
    email := "s@x.com"
    username := "stan"
    role := .staff }

/-- A concrete admin account used in witnesses. -/
def ada : User :=
  { alice with
    id := 4
    name := "Ada"
    email := "d@x.com"
    username := "ada"
    role := .admin }

/-- A second concrete admin account used in witnesses. -/
def adam : User :=
  { alice with
    id := 5
    name := "Adam"
    email := "e2@x.com"
    username := "adam"
    role := .admin }

/-- A second concrete manager account used in witnesses. -/
def mo : User :=
  { alice with
    id := 6
    name := "Mo"
    email := "o@x.com"
    username := "mo"
    role := .manager }

/-- The empty patch: every sentinel at its zero value. -/
def emptyPatch : UpdateUserRequest :=
  { name := ""
    email := ""
    username := ""
    phone := ""
    department := ""
    bio := ""
    profileImage := ""
    socialLinks := none
    role := none
    status := none }

/-- A patch that only sets the role field to admin. -/
def promotePatch : UpdateUserRequest := { emptyPatch with role := some .admin }

/-- A patch whose role field restates staff (a no-op role change). -/
def roleNoOpPatch : UpdateUserRequest := { emptyPatch with role := some .staff }

/-- A patch that only renames the account. -/
def renamePatch : UpdateUserRequest := { emptyPatch with name := "Stanley" }

/-- A concrete registration request asking for the admin role. -/
def eveAdminReq : RegisterRequest :=
  { name := "Eve"
    email := "e@x.com"
    username := "eve"
    password := "pw"
    phone := ""
    department := ""
    bio := ""
    role := .admin }

/-- A concrete registration request reusing the email of `alice`. -/
def dupReq : RegisterRequest :=
  { eveAdminReq with
    name := "Eve2"
    email := "a@x.com"
    username := "eve2"
    role := .staff }

/-- A concrete creation request for a manager account. -/
def newManagerReq : RegisterRequest :=
  { eveAdminReq with
    name := "Nell"
    email := "n@x.com"
    username := "nell"
    role := .manager }

/-- A concrete creation request for a staff account. -/
def newStaffReq : RegisterRequest :=
  { newManagerReq with role := .staff }

/-- C1: on the public register path, a request whose email and username are
free is stored with exactly the requested role and status active; the
handler applies no role restriction, so this holds in particular for a
request carrying role admin (the witness below uses one). -/
theorem register_stores_requested_role_active
    (hash : String → String) (now newId : Nat) (db : List User)
    (req : RegisterRequest)
    (hfree : emailOrUsernameTaken db req.email req.username = false) :
    Register hash now newId db req =
      (db ++ [registeredUser hash now newId req],
       .ok (registeredUser hash now newId req)) ∧
    (registeredUser hash now newId req).role = req.role ∧
    (registeredUser hash now newId req).status = UserStatus.active := by
  refine ⟨?_, rfl, rfl⟩
  simp [Register, hfree]

/-- Witness for C1: an unauthenticated registration requesting role admin
on an empty store yields an active admin account. -/
theorem register_stores_requested_role_active_witness :
    Register (fun p => p) 0 7 [] eveAdminReq =
      ([] ++ [registeredUser (fun p => p) 0 7 eveAdminReq],
       .ok (registeredUser (fun p => p) 0 7 eveAdminReq)) ∧
    (registeredUser (fun p => p) 0 7 eveAdminReq).role = eveAdminReq.role ∧
    (registeredUser (fun p => p) 0 7 eveAdminReq).status = UserStatus.active :=
  register_stores_requested_role_active (fun p => p) 0 7 [] eveAdminReq rfl

/-- C9: when some stored account already holds the requested email or
username, Register returns the 409 conflict and the store it hands back is
exactly the store it was given — nothing inserted, nothing changed. -/
theorem register_duplicate_is_conflict
    (hash : String → String) (now newId : Nat) (db : List User)
    (req : RegisterRequest) (u : User) (hu : u ∈ db)
    (hdup : u.email = req.email ∨ u.username = req.username) :
    Register hash now newId db req = (db, .error .conflict) := by
  have htaken : emailOrUsernameTaken db req.email req.username = true := by
    unfold emailOrUsernameTaken
    have hp : (u.email == req.email || u.username == req.username) = true := by
      rcases hdup with h | h <;> simp [h]
    exact List.find?_isSome.mpr ⟨u, hu, hp⟩
  simp [Register, htaken]

/-- Witness for C9: registering with the email of the stored account
`alice` is a conflict and leaves the one-record store as it was. -/
theorem register_duplicate_is_conflict_witness :
    Register (fun p => p) 1 8 [alice] dupReq = ([alice], .error .conflict) :=
  register_duplicate_is_conflict (fun p => p) 1 8 [alice] dupReq alice
    (by decide) (Or.inl rfl)

/-- C3: `can_create` realises the §4.3 table on all nine role pairs, and
in CreateUser a denied pair is a 403 with the store unchanged while an
allowed pair proceeds to the registration logic (duplicate check, then
insertion of the requested record). -/
theorem can_create_matches_table_and_gates_creation :
    (can_create .admin .admin = false ∧ can_create .admin .manager = true ∧
     can_create .admin .staff = true ∧
     can_create .manager .admin = false ∧ can_create .manager .manager = false ∧
     can_create .manager .staff = true ∧
     can_create .staff .admin = false ∧ can_create .staff .manager = false ∧
     can_create .staff .staff = false) ∧
    (∀ (hash : String → String) (now newId : Nat) (db : List User)
       (actorId : Nat) (req : RegisterRequest) (actor : User),
       findById db actorId = some actor →
       (can_create actor.role req.role = false →
         CreateUser hash now newId db actorId req = (db, .error .forbidden)) ∧
       (can_create actor.role req.role = true →
         CreateUser hash now newId db actorId req =
           (if emailOrUsernameTaken db req.email req.username then
             (db, .error .conflict)
           else
             (db ++ [createdUser hash now newId req],
              .ok (createdUser hash now newId req))))) := by
  refine ⟨by decide, ?_⟩
  intro hash now newId db actorId req actor ha
  refine ⟨fun hden => ?_, fun hall => ?_⟩
  · simp [CreateUser, ha, hden]
  · simp [CreateUser, ha, hall]

/-- Witness for C3 at the scenario of §8: a manager actor asking for a
manager target is a 403 with the store unchanged; the same actor asking
for a staff target inserts the record. -/
theorem can_create_gates_creation_witness :
    CreateUser (fun p => p) 0 9 [mia] 2 newManagerReq =
      ([mia], .error .forbidden) ∧
    CreateUser (fun p => p) 0 9 [mia] 2 newStaffReq =
      ([mia] ++ [createdUser (fun p => p) 0 9 newStaffReq],
       .ok (createdUser (fun p => p) 0 9 newStaffReq)) := by
  constructor
  · exact (can_create_matches_table_and_gates_creation.2 (fun p => p) 0 9 [mia] 2
      newManagerReq mia (by decide)).1 (by decide)
  · have h := (can_create_matches_table_and_gates_creation.2 (fun p => p) 0 9 [mia] 2
      newStaffReq mia (by decide)).2 (by decide)
    have hfree : emailOrUsernameTaken [mia] newStaffReq.email newStaffReq.username = false := by
      decide
    rw [h]
    simp [hfree]

/-- C4: `can_update` realises the §4.3 table — staff always denied;
manager allowed exactly on a staff target with no role field in the patch
(a role field is denied even as a no-op); admin allowed except when the
patch would move a target that is currently admin away from admin — and in
UpdateUser a denied triple is a 403 with the store unchanged while an
allowed triple never produces a 403. -/
theorem can_update_matches_table_and_gates_update :
    (∀ t p, can_update .staff t p = false) ∧
    (∀ t p, can_update .manager t p = true ↔ t = .staff ∧ p = none) ∧
    (∀ t p, can_update .admin t p = true ↔
      ¬(t = .admin ∧ ∃ r, p = some r ∧ r ≠ .admin)) ∧
    (∀ (now : Nat) (db : List User) (actorId targetId : Nat)
       (req : UpdateUserRequest) (actor target : User),
       findById db actorId = some actor →
       findById db targetId = some target →
       (can_update actor.role target.role req.role = false →
         UpdateUser now db actorId targetId req = (db, .error .forbidden)) ∧
       (can_update actor.role target.role req.role = true →
         (UpdateUser now db actorId targetId req).2 ≠ .error .forbidden)) := by
  refine ⟨by decide, by decide, by decide, ?_⟩
  intro now db actorId targetId req actor target ha ht
  refine ⟨fun hden => ?_, fun hall => ?_⟩
  · simp [UpdateUser, ha, ht, hden]
  · simp only [UpdateUser, ha, ht, hall, Bool.not_true, Bool.false_eq_true,
      if_false]
    split <;> simp
    split <;> simp

/-- Witness for C4: a manager actor with a staff target and a no-op role
field in the patch is a 403 with the store unchanged; the same actor and
target with an empty patch is not a 403. -/
theorem can_update_gates_update_witness :
    UpdateUser 3 [mia, stan] 2 3 roleNoOpPatch = ([mia, stan], .error .forbidden) ∧
    (UpdateUser 3 [mia, stan] 2 3 emptyPatch).2 ≠ .error .forbidden := by
  constructor
  · exact (can_update_matches_table_and_gates_update.2.2.2 3 [mia, stan] 2 3
      roleNoOpPatch mia stan (by decide) (by decide)).1 (by decide)
  · exact (can_update_matches_table_and_gates_update.2.2.2 3 [mia, stan] 2 3
      emptyPatch mia stan (by decide) (by decide)).2 (by decide)


/-- Deleting a found record shortens the store by exactly one. -/
theorem deleteFirst_length :
    ∀ (db : List User) (tid : Nat) (target : User),
    findById db tid = some target →
    (deleteFirst db tid).length + 1 = db.length := by
  intro db
  induction db with
  | nil => intro tid target h; simp [findById] at h
  | cons u rest ih =>
    intro tid target h
    by_cases hu : (u.id == tid) = true
    · simp [deleteFirst, hu]
    · have hu' : (u.id == tid) = false := by simpa using hu
      have h' : findById rest tid = some target := by
        simpa [findById, List.find?_cons, hu'] using h
      have ihh := ih tid target h'
      simp only [deleteFirst, hu', Bool.false_eq_true, if_false, List.length_cons]
      omega

/-- Every role sits at rank at most two (the admin rank). -/
theorem roleRank_le_two (r : UserRole) : roleRank r ≤ 2 := by
  cases r <;> simp [roleRank]

/-- C8: Login verifies the password before looking at the account status —
a wrong password on any matched account (inactive ones included) yields the
invalid-credentials error, and the inactive-account error can only arise
when the supplied password verified against the stored hash. -/
theorem login_verifies_password_before_status
    (check : String → String → Bool) (genToken : User → String)
    (now : Nat) (db : List User) (req : LoginRequest) :
    (∀ user, findByEmail db req.email = some user →
      check req.password user.password = false →
      Login check genToken now db req = (db, .error (401, invalidCredentialsMsg))) ∧
    ((Login check genToken now db req).2 = .error (401, inactiveAccountMsg) →
      ∃ user, findByEmail db req.email = some user ∧
        check req.password user.password = true ∧
        user.status ≠ UserStatus.active) := by
  have hne : invalidCredentialsMsg ≠ inactiveAccountMsg := by decide
  constructor
  · intro user hf hpw
    simp [Login, hf, hpw]
  · intro h
    rcases hf : findByEmail db req.email with _ | user
    · have hL : Login check genToken now db req =
          (db, .error (401, invalidCredentialsMsg)) := by
        simp [Login, hf]
      rw [hL] at h
      exact absurd (congrArg Prod.snd (Except.error.inj h)) hne
    · by_cases hpw : check req.password user.password
      · by_cases hst : user.status = UserStatus.active
        · have hL : (Login check genToken now db req).2 =
              .ok (genToken { user with lastLogin := some now, updatedAt := now },
                   { user with lastLogin := some now, updatedAt := now }) := by
            simp [Login, hf, hpw, hst]
          rw [hL] at h
          exact Except.noConfusion h
        · exact ⟨user, rfl, hpw, hst⟩
      · simp only [Bool.not_eq_true] at hpw
        have hL : Login check genToken now db req =
            (db, .error (401, invalidCredentialsMsg)) := by
          simp [Login, hf, hpw]
        rw [hL] at h
        exact absurd (congrArg Prod.snd (Except.error.inj h)) hne

/-- Witness for C8: on a store holding only an inactive account, a login
with a failing password check is answered with the invalid-credentials
message, not the inactive-account one. -/
theorem login_verifies_password_before_status_witness :
    Login (fun _ _ => false) (fun _ => "t") 2 [aliceInactive] aliceLoginReq =
      ([aliceInactive], .error (401, invalidCredentialsMsg)) :=
  (login_verifies_password_before_status (fun _ _ => false) (fun _ => "t") 2
    [aliceInactive] aliceLoginReq).1 aliceInactive (by decide) rfl

/-- The record stored by the C2 counterexample run: the staff target
promoted to admin, timestamp updated. -/
def promotedStan : User := { stan with role := .admin, updatedAt := 9 }

/-- C2 counterexample: an admin actor updating a staff target with a patch
whose role field is admin succeeds, and the resulting target role is equal
to the actor role — update_account does produce a peer of the actor. -/
theorem update_account_creates_peer_counterexample :
    UpdateUser 9 [ada, stan] 4 3 promotePatch =
      ([ada, promotedStan], .ok promotedStan) ∧
    roleRank promotedStan.role = roleRank ada.role := by
  constructor
  · decide
  · decide

/-- C2 amended: create_account always produces a target strictly below the
actor in the hierarchy, and so does update_account for a non-admin actor;
for an admin actor update_account never produces a target strictly above
admin, but it can produce a target at the admin level itself (see the
counterexample). -/
theorem account_mutations_never_exceed_actor_rank
    (hash : String → String) (now newId : Nat) (db : List User)
    (actorId targetId : Nat) (creq : RegisterRequest)
    (ureq : UpdateUserRequest) (actor : User)
    (ha : findById db actorId = some actor) :
    (∀ db' u, CreateUser hash now newId db actorId creq = (db', .ok u) →
      roleRank u.role < roleRank actor.role) ∧
    (∀ db' u, UpdateUser now db actorId targetId ureq = (db', .ok u) →
      roleRank u.role ≤ roleRank actor.role ∧
      (actor.role ≠ .admin → roleRank u.role < roleRank actor.role)) := by
  constructor
  · intro db' u h
    simp only [CreateUser, ha] at h
    by_cases hcc : can_create actor.role creq.role = true
    · rw [hcc] at h
      simp only [Bool.not_true, Bool.false_eq_true, if_false] at h
      split at h
      · exact Except.noConfusion (congrArg Prod.snd h)
      · have hu : u = createdUser hash now newId creq := by
          exact (Except.ok.inj (congrArg Prod.snd h)).symm
        subst hu
        have hrole : (createdUser hash now newId creq).role = creq.role := rfl
        rw [hrole]
        cases har : actor.role <;> cases hcr : creq.role <;>
          simp_all [can_create, roleRank]
    · have hcc' : can_create actor.role creq.role = false := by simpa using hcc
      rw [hcc'] at h
      simp only [Bool.not_false, if_true] at h
      exact Except.noConfusion (congrArg Prod.snd h)
  · intro db' u h
    simp only [UpdateUser, ha] at h
    rcases ht : findById db targetId with _ | target
    · rw [ht] at h
      exact Except.noConfusion (congrArg Prod.snd h)
    · simp only [ht] at h
      by_cases hcu : can_update actor.role target.role ureq.role = true
      · rw [hcu] at h
        simp only [Bool.not_true, Bool.false_eq_true, if_false] at h
        split at h
        · exact Except.noConfusion (congrArg Prod.snd h)
        · split at h
          · exact Except.noConfusion (congrArg Prod.snd h)
          · have hu : u = applyFields now ureq target := by
              exact (Except.ok.inj (congrArg Prod.snd h)).symm
            subst hu
            have hrole : (applyFields now ureq target).role =
                match ureq.role with
                | some r => r
                | none => target.role := rfl
            rw [hrole]
            cases har : actor.role
            · -- admin actor: rank is at most two, and the side condition is vacuous
              refine ⟨?_, fun hne => absurd rfl hne⟩
              exact le_trans (roleRank_le_two _) (by simp [roleRank])
            · -- manager actor: target is staff and the patch has no role field
              rw [har] at hcu
              have hts : target.role = .staff ∧ ureq.role = none := by
                cases htr : target.role <;> cases hur : ureq.role <;>
                  simp_all [can_update]
              rw [hts.2, hts.1]
              exact ⟨by simp [roleRank], fun _ => by simp [roleRank]⟩
            · -- staff actor: no update is permitted at all
              rw [har] at hcu
              simp [can_update] at hcu
      · have hcu' : can_update actor.role target.role ureq.role = false := by
          simpa using hcu
        rw [hcu'] at h
        simp only [Bool.not_false, if_true] at h
        exact Except.noConfusion (congrArg Prod.snd h)

/-- Witness for C2 amended: a manager actor creating a staff account yields
a target strictly below the manager rank. -/
theorem account_mutations_never_exceed_actor_rank_witness :
    roleRank (createdUser (fun p => p) 0 9 newStaffReq).role < roleRank mia.role :=
  (account_mutations_never_exceed_actor_rank (fun p => p) 0 9 [mia] 2 3 newStaffReq
    emptyPatch mia (by decide)).1
    ([mia] ++ [createdUser (fun p => p) 0 9 newStaffReq])
    (createdUser (fun p => p) 0 9 newStaffReq) (by decide)

/-- C5 counterexample: a staff actor deleting an admin target passes every
permission check of the handler and the record is removed — the claimed
staff row (deny on every target, record kept) does not hold in
delete_account. -/
theorem delete_by_staff_actor_succeeds_counterexample :
    DeleteUser [stan, ada] 3 4 = ([stan], .ok ()) := by decide

/-- C5 amended: `can_delete` follows the table on the admin and manager
rows — admin denied on admin and manager targets and allowed on staff,
manager denied on admin and allowed on staff (and on manager) — and a
staff actor is never denied by the handler itself (the staff row of the
table is enforced only by the admin-only endpoint middleware, outside
delete_account); a denied pair is a 403 with the store unchanged, an
allowed pair removes exactly the target record. -/
theorem can_delete_amended_table_and_gates_delete :
    (can_delete .admin .admin = false ∧ can_delete .admin .manager = false ∧
     can_delete .admin .staff = true ∧
     can_delete .manager .admin = false ∧ can_delete .manager .manager = true ∧
     can_delete .manager .staff = true ∧
     can_delete .staff .admin = true ∧ can_delete .staff .manager = true ∧
     can_delete .staff .staff = true) ∧
    (∀ (db : List User) (actorId targetId : Nat) (actor target : User),
      findById db targetId = some target →
      findById db actorId = some actor →
      (can_delete actor.role target.role = false →
        DeleteUser db actorId targetId = (db, .error .forbidden)) ∧
      (can_delete actor.role target.role = true →
        DeleteUser db actorId targetId = (deleteFirst db targetId, .ok ()) ∧
        (deleteFirst db targetId).length + 1 = db.length)) := by
  refine ⟨by decide, ?_⟩
  intro db actorId targetId actor target ht ha
  refine ⟨fun hden => ?_, fun hall => ?_⟩
  · cases har : actor.role <;> cases htr : target.role <;>
      simp_all [can_delete, DeleteUser]
  · refine ⟨?_, deleteFirst_length db targetId target ht⟩
    cases har : actor.role <;> cases htr : target.role <;>
      simp_all [can_delete, DeleteUser]

/-- Witness for C5 amended, matching the §8 scenario: an admin actor is
refused on an admin target with the store unchanged, and succeeds on a
staff target with the record removed. -/
theorem can_delete_gates_delete_witness :
    DeleteUser [ada, adam] 4 5 = ([ada, adam], .error .forbidden) ∧
    (DeleteUser [ada, stan] 4 3 = (deleteFirst [ada, stan] 3, .ok ()) ∧
     (deleteFirst [ada, stan] 3).length + 1 = ([ada, stan] : List User).length) := by
  constructor
  · exact (can_delete_amended_table_and_gates_delete.2 [ada, adam] 4 5 ada adam
      (by decide) (by decide)).1 (by decide)
  · exact (can_delete_amended_table_and_gates_delete.2 [ada, stan] 4 3 ada stan
      (by decide) (by decide)).2 (by decide)

/-- C6: a manager actor deleting a manager target is not denied — the
handler only forbids a manager on an admin target — so the delete passes
the permission checks and removes exactly the target record. -/
theorem manager_delete_manager_passes_and_removes
    (db : List User) (actorId targetId : Nat) (actor target : User)
    (ht : findById db targetId = some target)
    (ha : findById db actorId = some actor)
    (har : actor.role = .manager) (htr : target.role = .manager) :
    DeleteUser db actorId targetId = (deleteFirst db targetId, .ok ()) ∧
    (deleteFirst db targetId).length + 1 = db.length := by
  refine ⟨?_, deleteFirst_length db targetId target ht⟩
  simp [DeleteUser, ht, ha, har, htr]

/-- Witness for C6: one manager deletes another; the record is removed. -/
theorem manager_delete_manager_witness :
    DeleteUser [mia, mo] 2 6 = (deleteFirst [mia, mo] 6, .ok ()) ∧
    (deleteFirst [mia, mo] 6).length + 1 = ([mia, mo] : List User).length :=
  manager_delete_manager_passes_and_removes [mia, mo] 2 6 mia mo
    (by decide) (by decide) rfl rfl

/-- C10: on a successful update, the responded (and stored) record takes
each patched field from the patch, keeps each omitted field at the prior
value of the loaded target, carries `updatedAt = now`, and its password,
createdAt and lastLogin are exactly those of the prior record — the `$set`
list never touches them; the new store rewrites only the target record. -/
theorem update_success_applies_patch_and_preserves_rest
    (now : Nat) (db : List User) (actorId targetId : Nat)
    (req : UpdateUserRequest) (s : User) (db' : List User) (u : User)
    (hs : findById db targetId = some s)
    (h : UpdateUser now db actorId targetId req = (db', .ok u)) :
    u.password = s.password ∧ u.createdAt = s.createdAt ∧
    u.lastLogin = s.lastLogin ∧ u.updatedAt = now ∧
    (req.name = "" → u.name = s.name) ∧ (req.name ≠ "" → u.name = req.name) ∧
    (req.email = "" → u.email = s.email) ∧ (req.email ≠ "" → u.email = req.email) ∧
    (req.username = "" → u.username = s.username) ∧
    (req.username ≠ "" → u.username = req.username) ∧
    (req.phone = "" → u.phone = s.phone) ∧ (req.phone ≠ "" → u.phone = req.phone) ∧
    (req.department = "" → u.department = s.department) ∧
    (req.department ≠ "" → u.department = req.department) ∧
    (req.bio = "" → u.bio = s.bio) ∧ (req.bio ≠ "" → u.bio = req.bio) ∧
    (req.profileImage = "" → u.profileImage = s.profileImage) ∧
    (req.profileImage ≠ "" → u.profileImage = req.profileImage) ∧
    (req.socialLinks = none → u.socialLinks = s.socialLinks) ∧
    (∀ l, req.socialLinks = some l → u.socialLinks = some l) ∧
    (req.role = none → u.role = s.role) ∧ (∀ r, req.role = some r → u.role = r) ∧
    (req.status = none → u.status = s.status) ∧
    (∀ st, req.status = some st → u.status = st) ∧
    db' = updateFirst db targetId (fun st => applySet st u) := by
  rcases hA : findById db actorId with _ | actor
  · rw [UpdateUser, hA] at h
    exact Except.noConfusion (congrArg Prod.snd h)
  · simp only [UpdateUser, hA, hs] at h
    split at h
    · exact Except.noConfusion (congrArg Prod.snd h)
    · split at h
      · exact Except.noConfusion (congrArg Prod.snd h)
      · split at h
        · exact Except.noConfusion (congrArg Prod.snd h)
        · have hu : u = applyFields now req s :=
            (Except.ok.inj (congrArg Prod.snd h)).symm
          have hdb : db' = updateFirst db targetId (fun st => applySet st u) := by
            rw [hu]
            exact (congrArg Prod.fst h).symm
          subst hu
          refine ⟨rfl, rfl, rfl, rfl, fun h0 => ?_, fun h0 => ?_, fun h0 => ?_,
            fun h0 => ?_, fun h0 => ?_, fun h0 => ?_, fun h0 => ?_, fun h0 => ?_,
            fun h0 => ?_, fun h0 => ?_, fun h0 => ?_, fun h0 => ?_, fun h0 => ?_,
            fun h0 => ?_, fun h0 => ?_, fun l hl => ?_, fun h0 => ?_,
            fun r hr => ?_, fun h0 => ?_, fun st hst => ?_, hdb⟩
          · simp [applyFields, h0]
          · simp [applyFields, h0]
          · simp [applyFields, h0]
          · by_cases heq : req.email = s.email <;> simp [applyFields, h0, heq]
          · simp [applyFields, h0]
          · by_cases heq : req.username = s.username <;>
              simp [applyFields, h0, heq]
          · simp [applyFields, h0]
          · simp [applyFields, h0]
          · simp [applyFields, h0]
          · simp [applyFields, h0]
          · simp [applyFields, h0]
          · simp [applyFields, h0]
          · simp [applyFields, h0]
          · simp [applyFields, h0]
          · simp [applyFields, h0]
          · simp [applyFields, hl]
          · simp [applyFields, h0]
          · simp [applyFields, hr]
          · simp [applyFields, h0]
          · simp [applyFields, hst]

/-- The record produced by the C10 witness run: only the name and the
update timestamp differ from the prior record. -/
def stanRenamed : User := { stan with name := "Stanley", updatedAt := 7 }

/-- Witness for C10: an admin renames the staff account; the patched name
is applied, the omitted email is kept, and password, createdAt, lastLogin
are untouched while updatedAt is stamped. -/
theorem update_success_frame_witness :
    stanRenamed.password = stan.password ∧ stanRenamed.createdAt = stan.createdAt ∧
    stanRenamed.lastLogin = stan.lastLogin ∧ stanRenamed.updatedAt = 7 ∧
    stanRenamed.name = renamePatch.name ∧ stanRenamed.email = stan.email :=
  let H := update_success_applies_patch_and_preserves_rest 7 [ada, stan] 4 3
    renamePatch stan
    (updateFirst [ada, stan] 3 (fun st => applySet st stanRenamed)) stanRenamed
    (by decide) (by decide)
  ⟨H.1, H.2.1, H.2.2.1, H.2.2.2.1, H.2.2.2.2.2.1 (by decide),
   H.2.2.2.2.2.2.1 rfl⟩
